import Mathlib

/-!
A shallow embedding of the two scripts of the repository
(`1_summarizer_local_model.py` and `3_brochure_builder_with_ui.py`).

External effects are modelled as oracles passed in explicitly:

* HTTP fetch + HTML parse (`requests.get` + `BeautifulSoup`) becomes a
  function `String → Except String Soup`: `Except.error e` models any raised
  exception with message `str(e)` (transport error, `raise_for_status`, …),
  and `Except.ok soup` models a successfully parsed document.
* The chat-completion call (`openai.chat.completions.create` followed by
  `response.choices[0].message.content`) becomes a function
  `List ChatMessage → Except String String`; `Except.error e` models any
  exception raised by the call or by indexing the choices.
* `json.loads` applied to the link-classifier reply becomes a function
  `String → Except String LinksReply`; `Except.error e` models a
  `JSONDecodeError` (or any other exception raised while decoding).

Python strings are modelled as Lean `String`s; Python's `len` and slicing
count code points, which matches `String.length` and `List.take` on
`String.data`.
-/

/-- A chat message `{"role": ..., "content": ...}`. -/
structure ChatMessage where
  role : String
  content : String
deriving Repr, DecidableEq

/-- The result of parsing one HTML document with BeautifulSoup, as far as the
scripts observe it:

* `titleTag`: `none` when the document has no `<title>` element; otherwise
  `some s` where `s` models `soup.title.string` (itself `Option`al, since
  BeautifulSoup returns `None` for a title with no single string child).
* `body`: `none` when the document has no `<body>` element; otherwise the
  plain text that `get_text(separator="\n", strip=True)` extracts after the
  noise tags (`script`/`style`/`img`/`input`, plus `nav`/`footer` in the
  summarizer) have been decomposed.  The tag removal itself happens inside
  the external HTML library, so only its resulting text is modelled.
* `anchors`: the `href` attribute values of the anchor elements that carry an
  `href` attribute (`soup.find_all('a', href=True)`), in document order; an
  attribute value may be the empty string. -/
structure Soup where
  titleTag : Option (Option String)
  body : Option String
  anchors : List String
deriving Repr, DecidableEq

/-- Python slicing `s[:n]`: the first `n` code points of `s`. -/
def pyTake (n : Nat) (s : String) : String :=
  String.mk (s.data.take n)

/-- Python `str.strip()`: remove leading and trailing whitespace. -/
def pyStrip (s : String) : String :=
  String.mk
    (((s.data.dropWhile Char.isWhitespace).reverse.dropWhile
        Char.isWhitespace).reverse)

/-- `pat` occurs as a contiguous substring of `s`. -/
def hasSubstring (s pat : String) : Prop :=
  ∃ pre post : List Char, s.data = pre ++ pat.data ++ post

namespace Summarizer

/-- `SYSTEM_PROMPT` of `1_summarizer_local_model.py`. -/
def SYSTEM_PROMPT : String :=
  "You are an assistant that analyzes the contents of a website \nand provides a short summary, ignoring text that might be navigation related. \nRespond in markdown."

/-- The state of a summarizer `Website` object after `__init__`.  `title` is
`Option String` because Python may store `None` there (when the document has
a `<title>` element whose `.string` is `None`). -/
structure Website where
  url : String
  title : Option String
  text : String
deriving Repr, DecidableEq

/-- `Website.__init__` of the summarizer: fetch and parse `url`; on success
take the title (falling back to `"No title found"` when there is no
`<title>` element) and the cleaned body text (falling back to
`"No body content found"` when there is no `<body>`); on any exception store
the error markers built from `str(e)`. -/
def Website.ofUrl (fetch : String → Except String Soup) (url : String) :
    Website :=
  match fetch url with
  | Except.error e =>
      { url := url
        title := some ("Error: " ++ e)
        text := "Failed to fetch website content: " ++ e }
  | Except.ok soup =>
      { url := url
        title :=
          match soup.titleTag with
          | none => some "No title found"
          | some s => s
        text :=
          match soup.body with
          | some t => t
          | none => "No body content found" }

/-- Python `str()` as applied by an f-string to `self.title`, which may hold
`None`. -/
def pyStr (t : Option String) : String :=
  match t with
  | some s => s
  | none => "None"

/-- `WebsiteSummarizer._create_user_prompt` (leading underscore dropped). -/
def create_user_prompt (website : Website) : String :=
  "You are looking at a website titled " ++ pyStr website.title ++
  "\nThe contents of this website is as follows; please provide a short summary \nof this website in markdown. If it includes news or announcements, \nthen summarize these too.\n\n" ++
  website.text

/-- `WebsiteSummarizer._create_messages` (leading underscore dropped). -/
def create_messages (website : Website) : List ChatMessage :=
  [ { role := "system", content := SYSTEM_PROMPT },
    { role := "user", content := create_user_prompt website } ]

/-- `WebsiteSummarizer.summarize`: build the `Website`, call the completion
endpoint, and return its answer; on any exception from the call return the
formatted error string instead. -/
def summarize (fetch : String → Except String Soup)
    (complete : List ChatMessage → Except String String)
    (url : String) : String :=
  let website := Website.ofUrl fetch url
  match complete (create_messages website) with
  | Except.ok content => content
  | Except.error e =>
      "## Error Generating Summary\nFailed to generate summary: " ++ e

end Summarizer

namespace Brochure

/-- One entry of the link classifier's reply: `{"type": ..., "url": ...}`.
Entries whose decoding fails (missing keys, wrong shapes) are folded into
the decode-error case of the `parseLinks` oracle. -/
structure LinkClassification where
  type : String
  url : String
deriving Repr, DecidableEq

/-- The decoded JSON object returned by `json.loads` on the classifier reply.
`links = none` models a decoded object without a `"links"` key, for which
`.get("links", [])` falls back to the empty list. -/
structure LinksReply where
  links : Option (List LinkClassification)
deriving Repr, DecidableEq

/-- The external oracles of `3_brochure_builder_with_ui.py`: page fetching,
the chat-completion endpoint, and JSON decoding of the classifier reply. -/
structure Env where
  fetch : String → Except String Soup
  complete : List ChatMessage → Except String String
  parseLinks : String → Except String LinksReply

/-- The state of a brochure `Website` object after `__init__` ran
`_fetch_and_parse`.  On any exception the defaults set in `__init__` survive
(the error is only printed): `title = "No title found"`, `text = ""`,
`links = []`.  On success the title falls back to `"No title found"` when
the `<title>` element is absent or its string is `None` or empty (Python
truthiness), the body text stays `""` when there is no `<body>`, and the
links keep every non-empty `href` value in document order. -/
structure Website where
  url : String
  title : String
  text : String
  links : List String
deriving Repr, DecidableEq

/-- `Website.__init__` + `Website._fetch_and_parse` of the brochure script. -/
def Website.ofUrl (fetch : String → Except String Soup) (url : String) :
    Website :=
  match fetch url with
  | Except.error _ =>
      { url := url, title := "No title found", text := "", links := [] }
  | Except.ok soup =>
      { url := url
        title :=
          match soup.titleTag with
          | some (some s) => if s = "" then "No title found" else pyStrip s
          | _ => "No title found"
        text :=
          match soup.body with
          | some t => t
          | none => ""
        links := soup.anchors.filter (fun h => h != "") }

/-- `Website.get_contents`. -/
def Website.get_contents (w : Website) : String :=
  "Webpage Title:\n" ++ w.title ++ "\nWebpage Contents:\n" ++ w.text ++ "\n\n"

/-- `link_system_prompt` (literal braces written as escapes). -/
def link_system_prompt : String :=
  "You are provided with a list of links found on a webpage. You are able to decide which of the links would be most relevant to include in a brochure about the company, such as links to an About page, or a Company page, or Careers/Jobs pages.\nYou should respond in JSON as in this example:\n\x7b \"links\": [ \x7b\"type\": \"about page\", \"url\": \"https://full.url/goes/here/about\"\x7d, \x7b\"type\": \"careers page\", \"url\": \"https://another.full.url/careers\"\x7d ] \x7d"

/-- `get_links_user_prompt`. -/
def get_links_user_prompt (website : Website) : String :=
  "Here is the list of links on the website of " ++ website.url ++
  " - please decide which of these are relevant web links for a brochure about the company, respond with the full https URL in JSON format. Do not include Terms of Service, Privacy, email links.\nLinks (some might be relative links):\n" ++
  String.intercalate "\n" website.links

/-- `get_links`: fetch the page, ask the model for the relevant links, and
decode its reply with `json.loads`.  Neither the completion call nor the
decode is wrapped in a handler, so either failure propagates. -/
def get_links (env : Env) (url : String) : Except String LinksReply := do
  let website := Website.ofUrl env.fetch url
  let result ← env.complete
    [ { role := "system", content := link_system_prompt },
      { role := "user", content := get_links_user_prompt website } ]
  env.parseLinks result

/-- The loop guard of `get_all_details`:
`link["url"] and link["url"] != "/" and len(link["url"]) > 1`
(Python truthiness of a string is non-emptiness). -/
def follow_condition (u : String) : Bool :=
  u != "" && u != "/" && decide (u.length > 1)

/-- `get_all_details`, instrumented: alongside the accumulated `result`
string, the second component records the URL of every `Website(link["url"])`
fetch performed inside the loop, in the order the loop performs them.  The
`time.sleep(random.uniform(1, 2))` pacing call has no observable effect on
the result and is not modelled. -/
def get_all_details_core (env : Env) (url : String) :
    Except String (String × List String) := do
  let website := Website.ofUrl env.fetch url
  let reply ← get_links env url
  return (reply.links.getD []).foldl
    (fun acc link =>
      if follow_condition link.url then
        (acc.1 ++ "\n\n" ++ link.type ++ "\n" ++
           (Website.ofUrl env.fetch link.url).get_contents,
         acc.2 ++ [link.url])
      else acc)
    ("Landing page:\n" ++ website.get_contents, [])

/-- `get_all_details`: the aggregated document (first component of the
instrumented run). -/
def get_all_details (env : Env) (url : String) : Except String String :=
  (get_all_details_core env url).map Prod.fst

/-- The followed-link fetches of one `get_all_details` run (second component
of the instrumented run). -/
def follow_fetches (env : Env) (url : String) : Except String (List String) :=
  (get_all_details_core env url).map Prod.snd

/-- The block that the aggregation loop appends for one followed
classification: a blank line, the classification's `type` label, and the
fetched page's contents.  Stated from the spec's description of the
aggregated document, to be compared with what `get_all_details` builds. -/
def chunkOf (env : Env) (l : LinkClassification) : String :=
  "\n\n" ++ l.type ++ "\n" ++ (Website.ofUrl env.fetch l.url).get_contents

/-- Concatenation of the blocks of a classification list, in list order. -/
def chunksOf (env : Env) : List LinkClassification → String
  | [] => ""
  | l :: ls => chunkOf env l ++ chunksOf env ls

/-- `system_prompt` of the brochure script. -/
def system_prompt : String :=
  "You are an assistant that analyzes the contents of several relevant pages from a company website and creates a short brochure about the company for prospective customers, investors and recruits. Respond in markdown. Include details of company culture, customers and careers/jobs if you have the information."

/-- `get_brochure_user_prompt`: preamble plus aggregated document, truncated
by `user_prompt[:5000]`. -/
def get_brochure_user_prompt (env : Env) (company_name url : String) :
    Except String String := do
  let details ← get_all_details env url
  let user_prompt :=
    "You are looking at a company called: " ++ company_name ++ "\n" ++
    "Here are the contents of its landing page and other relevant pages; use this information to build a short brochure of the company in markdown.\n" ++
    details
  return pyTake 5000 user_prompt

/-- `create_brochure`: build the prompt and call the completion endpoint.
No handler anywhere in the function: any failure propagates to the caller
(the UI layer). -/
def create_brochure (env : Env) (company_name url : String) :
    Except String String := do
  let prompt ← get_brochure_user_prompt env company_name url
  env.complete
    [ { role := "system", content := system_prompt },
      { role := "user", content := prompt } ]

end Brochure

namespace Examples

/-- A parsed page used to exercise the successful paths: its anchors include
a bare `/`, an empty `href`, and a duplicated absolute URL. -/
def soupA : Soup :=
  { titleTag := some (some "Example Domain")
    body := some "Hello world"
    anchors := ["/", "", "https://x.example/about", "https://x.example/about"] }

/-- A parsed page without a `<body>` element. -/
def soupNoBody : Soup :=
  { titleTag := some (some "Bare Title"), body := none, anchors := [] }

/-- A fetch oracle for which every URL resolves to `soupA`. -/
def fetchA : String → Except String Soup := fun _ => Except.ok soupA

/-- A fetch oracle for which every URL resolves to `soupNoBody`. -/
def fetchNoBody : String → Except String Soup := fun _ => Except.ok soupNoBody

/-- A fetch oracle for which every request raises. -/
def fetchFail : String → Except String Soup := fun _ => Except.error "timeout"

/-- A completion oracle for which every call raises. -/
def completeFail : List ChatMessage → Except String String :=
  fun _ => Except.error "connection refused"

/-- A decoded classifier reply with a duplicated URL, a bare `/`, and an
empty URL. -/
def replyA : Brochure.LinksReply :=
  { links := some
      [ { type := "about page", url := "https://x.example/about" },
        { type := "about page", url := "https://x.example/about" },
        { type := "nav", url := "/" },
        { type := "empty", url := "" } ] }

/-- Oracles for a run in which every external call succeeds. -/
def envA : Brochure.Env :=
  { fetch := fetchA
    complete := fun _ => Except.ok "raw"
    parseLinks := fun _ => Except.ok replyA }

/-- Oracles for a run whose completion calls succeed but whose classifier
reply is not valid JSON. -/
def envDecodeFail : Brochure.Env :=
  { fetch := fetchA
    complete := fun _ => Except.ok "not json"
    parseLinks := fun _ =>
      Except.error "Expecting value: line 1 column 1 (char 0)" }

/-- Oracles for a run in which the link-classifier completion call succeeds
(recognised by its system instruction) while the final brochure completion
call raises. -/
def envFinalFail : Brochure.Env :=
  { fetch := fetchA
    complete := fun msgs =>
      match msgs with
      | m :: _ =>
          if m.content = Brochure.link_system_prompt then Except.ok "raw"
          else Except.error "boom"
      | [] => Except.error "boom"
    parseLinks := fun _ => Except.ok { links := some [] } }

end Examples

/-! ## Helper lemmas -/

namespace Brochure

/-- The loop guard of `get_all_details`, as a proposition. -/
theorem follow_condition_iff (u : String) :
    follow_condition u = true ↔ u ≠ "" ∧ u ≠ "/" ∧ u.length > 1 := by
  simp [follow_condition, and_assoc]

/-- Characterisation of the aggregation loop: starting from accumulator
`(s, t)`, the fold appends one block per classification that passes the
guard, in list order, and records the corresponding fetches in order. -/
theorem get_all_details_foldl (env : Env) (L : List LinkClassification)
    (s : String) (t : List String) :
    L.foldl
      (fun acc link =>
        if follow_condition link.url then
          (acc.1 ++ "\n\n" ++ link.type ++ "\n" ++
             (Website.ofUrl env.fetch link.url).get_contents,
           acc.2 ++ [link.url])
        else acc)
      (s, t)
    = (s ++ chunksOf env (L.filter fun l => follow_condition l.url),
       t ++ (L.filter fun l => follow_condition l.url).map fun l => l.url) := by
  induction L generalizing s t with
  | nil => simp [chunksOf]
  | cons l ls ih =>
    rw [List.foldl_cons]
    by_cases hc : follow_condition l.url = true
    · rw [if_pos hc, ih]
      simp [List.filter_cons, hc, chunksOf, chunkOf, String.append_assoc]
    · rw [if_neg hc, ih]
      simp [List.filter_cons, hc]

/-- When the classifier step succeeds, the instrumented aggregation run is
fully determined. -/
theorem get_all_details_core_ok (env : Env) (url : String) (L : LinksReply)
    (h : get_links env url = Except.ok L) :
    get_all_details_core env url = Except.ok
      ("Landing page:\n" ++ (Website.ofUrl env.fetch url).get_contents ++
         chunksOf env ((L.links.getD []).filter fun l => follow_condition l.url),
       ((L.links.getD []).filter fun l => follow_condition l.url).map
         fun l => l.url) := by
  simp [get_all_details_core, h]
  rw [get_all_details_foldl]
  simp [String.append_assoc]

end Brochure

/-- `pyTake` never returns more than `n` code points. -/
theorem pyTake_length_le (n : Nat) (s : String) : (pyTake n s).length ≤ n := by
  have h : (pyTake n s).length = (s.data.take n).length := rfl
  rw [h, List.length_take]
  exact min_le_left _ _

/-! ## Claim theorems -/

/-- C1: for every company name and URL, whenever the brochure pipeline builds
its user-message content (`get_brochure_user_prompt` succeeds), that content
is at most 5000 characters long: the assembled document is truncated to the
fixed 5000-character budget before the `ChatMessage` pair is built. -/
theorem brochure_user_prompt_bounded (env : Brochure.Env)
    (company_name url s : String)
    (h : Brochure.get_brochure_user_prompt env company_name url = Except.ok s) :
    s.length ≤ 5000 := by
  rcases hd : Brochure.get_all_details env url with e | d
  · simp [Brochure.get_brochure_user_prompt, hd] at h
  · simp [Brochure.get_brochure_user_prompt, hd] at h
    rw [← h]
    exact pyTake_length_le 5000 _

theorem brochure_user_prompt_bounded_witness :
    ((Brochure.get_brochure_user_prompt Examples.envA "ACME"
        "https://x.example").toOption.getD "").length ≤ 5000 :=
  brochure_user_prompt_bounded Examples.envA "ACME" "https://x.example" _ rfl

/-- C2: whenever the fetch of a URL fails, the summarizer's `Website`
constructor does not raise: it returns an object whose title is the error
marker `"Error: " ++ e` (which contains the word `"Error"`) and whose body
text is `"Failed to fetch website content: " ++ e` (which contains the
failure marker `"Failed to fetch website content"`), so the rest of the
pipeline runs to completion. -/
theorem summarizer_fetch_error_markers (fetch : String → Except String Soup)
    (url e : String) (h : fetch url = Except.error e) :
    (Summarizer.Website.ofUrl fetch url).title = some ("Error: " ++ e) ∧
    (Summarizer.Website.ofUrl fetch url).text =
      "Failed to fetch website content: " ++ e ∧
    (∀ t, (Summarizer.Website.ofUrl fetch url).title = some t →
      hasSubstring t "Error") ∧
    hasSubstring (Summarizer.Website.ofUrl fetch url).text
      "Failed to fetch website content" := by
  have hw : Summarizer.Website.ofUrl fetch url =
      { url := url
        title := some ("Error: " ++ e)
        text := "Failed to fetch website content: " ++ e } := by
    simp [Summarizer.Website.ofUrl, h]
  rw [hw]
  refine ⟨rfl, rfl, ?_, ?_⟩
  · intro t ht
    have ht' : ("Error: " ++ e) = t := by simpa using ht
    refine ⟨[], ": ".data ++ e.data, ?_⟩
    rw [← ht', String.data_append]
    rfl
  · refine ⟨[], ": ".data ++ e.data, ?_⟩
    rw [String.data_append]
    rfl

theorem summarizer_fetch_error_markers_witness :
    (Summarizer.Website.ofUrl Examples.fetchFail "https://down.example").title
        = some ("Error: " ++ "timeout") ∧
    (Summarizer.Website.ofUrl Examples.fetchFail "https://down.example").text
        = "Failed to fetch website content: " ++ "timeout" ∧
    (∀ t, (Summarizer.Website.ofUrl Examples.fetchFail
        "https://down.example").title = some t → hasSubstring t "Error") ∧
    hasSubstring
      (Summarizer.Website.ofUrl Examples.fetchFail "https://down.example").text
      "Failed to fetch website content" :=
  summarizer_fetch_error_markers Examples.fetchFail "https://down.example"
    "timeout" rfl

/-- C4: when the classifier's completion call succeeds but its reply is not
well-formed JSON, `get_links` does not handle the decode failure: the error
propagates uncaught through `get_links`, `get_all_details` and
`create_brochure`, terminating the brochure build for that URL. -/
theorem link_decode_error_propagates (env : Brochure.Env) (url r e : String)
    (h1 : env.complete
        [ { role := "system", content := Brochure.link_system_prompt },
          { role := "user", content := Brochure.get_links_user_prompt
              (Brochure.Website.ofUrl env.fetch url) } ]
      = Except.ok r)
    (h2 : env.parseLinks r = Except.error e) :
    Brochure.get_links env url = Except.error e ∧
    Brochure.get_all_details env url = Except.error e ∧
    ∀ company_name,
      Brochure.create_brochure env company_name url = Except.error e := by
  have hg : Brochure.get_links env url = Except.error e := by
    have hunfold : Brochure.get_links env url =
        Except.bind
          (env.complete
            [ { role := "system", content := Brochure.link_system_prompt },
              { role := "user", content := Brochure.get_links_user_prompt
                  (Brochure.Website.ofUrl env.fetch url) } ])
          env.parseLinks := rfl
    rw [hunfold, h1]
    exact h2
  have ha : Brochure.get_all_details env url = Except.error e := by
    unfold Brochure.get_all_details Brochure.get_all_details_core
    rw [hg]
    rfl
  refine ⟨hg, ha, fun company_name => ?_⟩
  unfold Brochure.create_brochure Brochure.get_brochure_user_prompt
  rw [ha]
  rfl

theorem link_decode_error_propagates_witness :
    Brochure.get_links Examples.envDecodeFail "https://x.example"
      = Except.error "Expecting value: line 1 column 1 (char 0)" ∧
    Brochure.create_brochure Examples.envDecodeFail "ACME" "https://x.example"
      = Except.error "Expecting value: line 1 column 1 (char 0)" :=
  ⟨(link_decode_error_propagates Examples.envDecodeFail "https://x.example"
      "not json" "Expecting value: line 1 column 1 (char 0)" rfl rfl).1,
   (link_decode_error_propagates Examples.envDecodeFail "https://x.example"
      "not json" "Expecting value: line 1 column 1 (char 0)" rfl rfl).2.2 "ACME"⟩

/-- C7: whenever the fetch of a URL fails, the brochure variant's `Website`
constructor does not raise: the object keeps the defaults set in `__init__`
(placeholder title, empty body text, empty link list), so aggregation over
followed links degrades silently. -/
theorem brochure_fetch_error_defaults (fetch : String → Except String Soup)
    (url e : String) (h : fetch url = Except.error e) :
    Brochure.Website.ofUrl fetch url =
      { url := url, title := "No title found", text := "", links := [] } := by
  simp [Brochure.Website.ofUrl, h]

theorem brochure_fetch_error_defaults_witness :
    Brochure.Website.ofUrl Examples.fetchFail "https://down.example" =
      { url := "https://down.example", title := "No title found", text := ""
        links := [] } :=
  brochure_fetch_error_defaults Examples.fetchFail "https://down.example"
    "timeout" rfl

/-- C5: for every classifier result, the aggregation loop fetches a
classified link if and only if its `url` is non-empty, is not the single
character `"/"`, and is longer than one character; in particular a
classification with `url = "/"` is never fetched. -/
theorem aggregator_follow_iff (env : Brochure.Env) (url : String)
    (L : Brochure.LinksReply)
    (h : Brochure.get_links env url = Except.ok L) :
    ∃ fs, Brochure.follow_fetches env url = Except.ok fs ∧
      ∀ u, (u ∈ fs ↔ ∃ l ∈ L.links.getD [],
        l.url = u ∧ u ≠ "" ∧ u ≠ "/" ∧ u.length > 1) := by
  have hff : Brochure.follow_fetches env url = Except.ok
      (((L.links.getD []).filter
          fun l => Brochure.follow_condition l.url).map fun l => l.url) := by
    simp [Brochure.follow_fetches,
      Brochure.get_all_details_core_ok env url L h, Except.map]
  refine ⟨_, hff, fun u => ?_⟩
  simp only [List.mem_map, List.mem_filter]
  constructor
  · rintro ⟨l, ⟨hmem, hcond⟩, rfl⟩
    rcases (Brochure.follow_condition_iff l.url).mp hcond with ⟨h1, h2, h3⟩
    exact ⟨l, hmem, rfl, h1, h2, h3⟩
  · rintro ⟨l, hmem, rfl, h1, h2, h3⟩
    exact ⟨l, ⟨hmem, (Brochure.follow_condition_iff l.url).mpr ⟨h1, h2, h3⟩⟩,
      rfl⟩

theorem aggregator_follow_iff_witness :
    ∃ fs, Brochure.follow_fetches Examples.envA "https://x.example"
        = Except.ok fs ∧
      ∀ u, (u ∈ fs ↔ ∃ l ∈ Examples.replyA.links.getD [],
        l.url = u ∧ u ≠ "" ∧ u ≠ "/" ∧ u.length > 1) :=
  aggregator_follow_iff Examples.envA "https://x.example" Examples.replyA rfl

/-- C6: for every URL and classifier result, the aggregated document is the
landing page's fetched content labeled `"Landing page"`, followed by one
block per followed classification — labeled with its `type` — in exactly the
order the classifications were returned, with no reordering and no
deduplication (a duplicated classification yields its block twice). -/
theorem aggregator_document_structure (env : Brochure.Env) (url : String)
    (L : Brochure.LinksReply)
    (h : Brochure.get_links env url = Except.ok L) :
    Brochure.get_all_details env url = Except.ok
      ("Landing page:\n" ++ (Brochure.Website.ofUrl env.fetch url).get_contents
        ++ Brochure.chunksOf env
          ((L.links.getD []).filter
            fun l => Brochure.follow_condition l.url)) := by
  simp [Brochure.get_all_details, Brochure.get_all_details_core_ok env url L h,
    String.append_assoc, Except.map]

theorem aggregator_document_structure_witness :
    Brochure.get_all_details Examples.envA "https://x.example" = Except.ok
      ("Landing page:\n" ++
        (Brochure.Website.ofUrl Examples.envA.fetch
          "https://x.example").get_contents
        ++ Brochure.chunksOf Examples.envA
          ((Examples.replyA.links.getD []).filter
            fun l => Brochure.follow_condition l.url)) :=
  aggregator_document_structure Examples.envA "https://x.example"
    Examples.replyA rfl

/-- C8: for every successfully fetched document, the brochure `Website`
collects exactly the non-empty `href` values of the document's anchors —
membership keeps every non-empty value unchanged (no URL normalization),
the collected list is a sublist of the anchors in document order, and each
non-empty value keeps its multiplicity (no deduplication). -/
theorem brochure_link_collection (fetch : String → Except String Soup)
    (url : String) (soup : Soup) (h : fetch url = Except.ok soup) :
    (Brochure.Website.ofUrl fetch url).links.Sublist soup.anchors ∧
    (∀ a, a ∈ (Brochure.Website.ofUrl fetch url).links ↔
      a ∈ soup.anchors ∧ a ≠ "") ∧
    (∀ a, a ≠ "" →
      (Brochure.Website.ofUrl fetch url).links.count a
        = soup.anchors.count a) := by
  have hl : (Brochure.Website.ofUrl fetch url).links =
      soup.anchors.filter (fun x => x != "") := by
    simp [Brochure.Website.ofUrl, h]
  rw [hl]
  refine ⟨List.filter_sublist _, ?_, ?_⟩
  · intro a
    simp [List.mem_filter]
  · intro a ha
    exact List.count_filter (by simpa using ha)

theorem brochure_link_collection_witness :
    (Brochure.Website.ofUrl Examples.fetchA
        "https://x.example").links.Sublist Examples.soupA.anchors ∧
    (∀ a, a ∈ (Brochure.Website.ofUrl Examples.fetchA
        "https://x.example").links ↔
      a ∈ Examples.soupA.anchors ∧ a ≠ "") ∧
    (∀ a, a ≠ "" →
      (Brochure.Website.ofUrl Examples.fetchA "https://x.example").links.count a
        = Examples.soupA.anchors.count a) :=
  brochure_link_collection Examples.fetchA "https://x.example" Examples.soupA
    rfl

/-- C9: the summarizer's prompt building is deterministic in the fetched
page: whenever two fetches yield `Website` objects with identical title and
identical body text, the system/user message pair handed to the completion
endpoint is identical. -/
theorem summarizer_prompt_deterministic
    (fetch1 fetch2 : String → Except String Soup) (url1 url2 : String)
    (ht : (Summarizer.Website.ofUrl fetch1 url1).title
        = (Summarizer.Website.ofUrl fetch2 url2).title)
    (hx : (Summarizer.Website.ofUrl fetch1 url1).text
        = (Summarizer.Website.ofUrl fetch2 url2).text) :
    Summarizer.create_messages (Summarizer.Website.ofUrl fetch1 url1)
      = Summarizer.create_messages (Summarizer.Website.ofUrl fetch2 url2) := by
  simp [Summarizer.create_messages, Summarizer.create_user_prompt, ht, hx]

theorem summarizer_prompt_deterministic_witness :
    Summarizer.create_messages
        (Summarizer.Website.ofUrl Examples.fetchA "https://x.example")
      = Summarizer.create_messages
        (Summarizer.Website.ofUrl (fun _ => Except.ok Examples.soupA)
          "https://x.example/other") :=
  summarizer_prompt_deterministic Examples.fetchA
    (fun _ => Except.ok Examples.soupA) "https://x.example"
    "https://x.example/other" rfl rfl

/-- C10: for every fetch that succeeds with a document containing no body
element, the summarizer's `Website` takes the fixed placeholder
`"No body content found"` as body text, takes its title from the document
(or the missing-title placeholder), and the placeholder differs from every
fetch-failure body text, so an empty-body page is distinguishable from a
fetch failure. -/
theorem summarizer_empty_body_placeholder (fetch : String → Except String Soup)
    (url : String) (soup : Soup) (h : fetch url = Except.ok soup)
    (hb : soup.body = none) :
    (Summarizer.Website.ofUrl fetch url).text = "No body content found" ∧
    (Summarizer.Website.ofUrl fetch url).title
      = soup.titleTag.getD (some "No title found") ∧
    ∀ e, (Summarizer.Website.ofUrl fetch url).text ≠
      "Failed to fetch website content: " ++ e := by
  have hx : (Summarizer.Website.ofUrl fetch url).text
      = "No body content found" := by
    simp [Summarizer.Website.ofUrl, h, hb]
  have htl : (Summarizer.Website.ofUrl fetch url).title
      = soup.titleTag.getD (some "No title found") := by
    simp only [Summarizer.Website.ofUrl, h]
    rcases htt : soup.titleTag with _ | t <;> simp [htt]
  refine ⟨hx, htl, fun e he => ?_⟩
  rw [hx] at he
  have hlen := congrArg String.length he
  rw [String.length_append] at hlen
  have h21 : ("No body content found" : String).length = 21 := rfl
  have h33 : ("Failed to fetch website content: " : String).length = 33 := rfl
  rw [h21, h33] at hlen
  omega

theorem summarizer_empty_body_placeholder_witness :
    (Summarizer.Website.ofUrl Examples.fetchNoBody "https://x.example").text
        = "No body content found" ∧
    (Summarizer.Website.ofUrl Examples.fetchNoBody "https://x.example").title
        = Examples.soupNoBody.titleTag.getD (some "No title found") ∧
    ∀ e, (Summarizer.Website.ofUrl Examples.fetchNoBody
        "https://x.example").text ≠ "Failed to fetch website content: " ++ e :=
  summarizer_empty_body_placeholder Examples.fetchNoBody "https://x.example"
    Examples.soupNoBody rfl rfl

set_option maxRecDepth 100000 in
/-- C3 counterexample: a run in which the page fetch and the link-classifier
call both succeed and only the final brochure completion call fails.  The
claim says `create_brochure` recovers locally and returns a formatted error
string; instead the failure propagates unchanged to the caller. -/
theorem create_brochure_propagates_failure_cex :
    Brochure.create_brochure Examples.envFinalFail "ACME" "https://x.example"
      = Except.error "boom" := by
  rfl

/-- C3 (amended): on failure of the chat-completion call, the summarizer's
`summarize` recovers locally and returns a formatted error string embedding
the failure detail, while the brochure builder's `create_brochure` contains
no handler: the completion failure propagates unchanged to its caller. -/
theorem completion_failure_recovery_amended :
    (∀ (fetch : String → Except String Soup)
       (complete : List ChatMessage → Except String String) (url e : String),
       complete (Summarizer.create_messages (Summarizer.Website.ofUrl fetch url))
         = Except.error e →
       Summarizer.summarize fetch complete url =
         "## Error Generating Summary\nFailed to generate summary: " ++ e)
    ∧ (∀ (env : Brochure.Env) (company_name url p e : String),
       Brochure.get_brochure_user_prompt env company_name url = Except.ok p →
       env.complete
           [ { role := "system", content := Brochure.system_prompt },
             { role := "user", content := p } ]
         = Except.error e →
       Brochure.create_brochure env company_name url = Except.error e) := by
  constructor
  · intro fetch complete url e h
    simp [Summarizer.summarize, h]
  · intro env company_name url p e h1 h2
    have hunfold : Brochure.create_brochure env company_name url =
        Except.bind (Brochure.get_brochure_user_prompt env company_name url)
          (fun prompt => env.complete
            [ { role := "system", content := Brochure.system_prompt },
              { role := "user", content := prompt } ]) := rfl
    rw [hunfold, h1]
    exact h2

set_option maxRecDepth 100000 in
theorem completion_failure_recovery_amended_witness :
    Summarizer.summarize Examples.fetchA Examples.completeFail
        "https://x.example"
      = "## Error Generating Summary\nFailed to generate summary: "
        ++ "connection refused" ∧
    Brochure.create_brochure Examples.envFinalFail "ACME" "https://x.example"
      = Except.error "boom" :=
  ⟨completion_failure_recovery_amended.1 Examples.fetchA Examples.completeFail
      "https://x.example" "connection refused" rfl,
   completion_failure_recovery_amended.2 Examples.envFinalFail "ACME"
      "https://x.example" _ "boom" rfl rfl⟩
